import Mathlib

/-!
Verification development for the travelintelligence-insights authentication
gateway.  The JavaScript sources are shallowly embedded: each keyed SQL table
becomes an association list, each stateful operation becomes an explicit
state-passing function, and external collaborators (the Ghost member
directory, the mailer, the WebAuthn cryptographic capability, the JWT
library) become parameters of the embedded routes.
-/

namespace TravelInsights

set_option maxRecDepth 10000

/-! ## Verification-code store (`verificationCodeQueries`, src `lib/db`)

The `verification_codes` table has `email` as its primary key, columns
`code` (TEXT) and `expires_at` (INTEGER, milliseconds).  The table is
modelled as an association list keyed by email. -/

structure CodeRecord where
  code : String
  expiresAt : Nat
deriving DecidableEq

/-- The `verification_codes` table: association list keyed by email. -/
abbrev CodeStore := List (String × CodeRecord)

/-- `getCode(email)`: `SELECT code, expires_at FROM verification_codes WHERE email = ?`. -/
def getCode (email : String) : CodeStore → Option CodeRecord
  | [] => none
  | (k, r) :: rest => if k = email then some r else getCode email rest

/-- `deleteCode(email)`: `DELETE FROM verification_codes WHERE email = ?`. -/
def deleteCode (email : String) : CodeStore → CodeStore
  | [] => []
  | (k, r) :: rest =>
    if k = email then deleteCode email rest else (k, r) :: deleteCode email rest

/-- `storeCode(email, code, expiresAt)`:
`INSERT OR REPLACE INTO verification_codes (email, code, expires_at) VALUES (?, ?, ?)` —
an atomic upsert on the primary key `email`. -/
def storeCode (email code : String) (expiresAt : Nat) (s : CodeStore) : CodeStore :=
  (email, ⟨code, expiresAt⟩) :: deleteCode email s

/-- `emailVerification.verifyCode(email, code)` from the gateway app
(src app.js, test-mode service): fetches the stored record; fails when the
record is absent, the code mismatches (`storedData.code !== code`), or the
record is expired (`storedData.expiresAt < Date.now()`); on an
expiry-detected failure deletes the stale record; on success deletes the
record and returns true. -/
def verifyCode (now : Nat) (email code : String) (s : CodeStore) :
    Bool × CodeStore :=
  match getCode email s with
  | none => (false, s)
  | some stored =>
    if stored.code ≠ code ∨ stored.expiresAt < now then
      if stored.expiresAt < now then (false, deleteCode email s) else (false, s)
    else
      (true, deleteCode email s)

/-! ## Passkey credential store (`passkeyQueries`, src `lib/db`)

The `passkeys` table rows carry `email`, `credential_id` (UNIQUE),
`public_key`, `counter` (INTEGER, DEFAULT 0).  Modelled as a list of rows;
lookup by credential id returns the first matching row. -/

structure Credential where
  credential_id : String
  email : String
  public_key : String
  counter : Nat
deriving DecidableEq

abbrev PasskeyStore := List Credential

/-- `findPasskeyByCredentialId`: `SELECT * FROM passkeys WHERE credential_id = ?`. -/
def findPasskeyByCredentialId (credId : String) : PasskeyStore → Option Credential
  | [] => none
  | c :: rest =>
    if c.credential_id = credId then some c
    else findPasskeyByCredentialId credId rest

/-- `updatePasskeyCounter`: `UPDATE passkeys SET counter = ? WHERE credential_id = ?`. -/
def updatePasskeyCounter (counter : Nat) (credId : String) (s : PasskeyStore) :
    PasskeyStore :=
  s.map fun c =>
    if c.credential_id = credId then { c with counter := counter } else c

/-- Modelled from the spec: `PasskeyAuth.verifyAuthentication` lives in the
shared `@bear/sso` library, which is not part of this repository's sources
(only its callers, mocks and the persistence queries are under src).  Per
spec §4.2 it looks up the credential by the ID embedded in the assertion,
delegates signature/origin verification to the external capability (here the
boolean `capVerified` together with the capability's reported `newCounter`),
requires the reported new counter to be strictly greater than the stored
counter (replay defense, even when the capability alone reported success),
and on success updates the stored counter to the reported value and returns
the resolved email. -/
def verifyAuthentication (capVerified : Bool) (newCounter : Nat)
    (credId : String) (s : PasskeyStore) :
    (Bool × Option String) × PasskeyStore :=
  match findPasskeyByCredentialId credId s with
  | none => ((false, none), s)
  | some cred =>
    if capVerified = true ∧ cred.counter < newCounter then
      ((true, some cred.email), updatePasskeyCounter newCounter credId s)
    else
      ((false, none), s)

/-! ## Sessions, labels and the policy gate (src app.js)

A session is the in-cookie record written by the shared library;
`requireLabels` is the access-policy middleware of the gateway app. -/

structure SessionData where
  authenticated : Bool
  userEmail : Option String
  userName : Option String
  userLabels : Option (List String)
deriving DecidableEq

/-- Modelled from the spec: `createAuthSession` comes from the shared
`@bear/sso` library, which is not part of this repository's sources.  Per
spec §4.3 `createSession(identity)` writes the identity's email, name and
labels into the session record and marks `authenticated = true`. -/
def createAuthSession (email name : String) (labels : List String) :
    SessionData :=
  { authenticated := true
    userEmail := some email
    userName := some name
    userLabels := some labels }

/-- Outcome of the `requireLabels` middleware: either fall through to the
proxy (`next()`) or answer 403 with a JSON body `\x7b error, message,
redirectUrl \x7d`. -/
inductive LabelsOutcome where
  | next : LabelsOutcome
  | denied (message redirectUrl : String) : LabelsOutcome
deriving DecidableEq

/-- `requireLabels(req, res, next)` from the gateway app: answers 403 when
there is no session or no `userLabels` on it; otherwise grants access iff
some session label is in `ALLOWED_LABELS`. -/
def requireLabels (session : Option SessionData) (allowedLabels : List String) :
    LabelsOutcome :=
  match session with
  | none =>
    .denied "You do not have permission to access this content."
      "https://travelintelligence.club"
  | some s =>
    match s.userLabels with
    | none =>
      .denied "You do not have permission to access this content."
        "https://travelintelligence.club"
    | some userLabels =>
      if userLabels.any (fun label => allowedLabels.contains label) then .next
      else
        .denied "You need to join Travel Intelligence Club to access insights."
          "https://travelintelligence.club"

/-- Following the claim's words (not the source): access is granted exactly
when the session exists, is authenticated, and the intersection of its
labels with the allowed list is non-empty. -/
def claimEvaluate (session : Option SessionData) (allowedLabels : List String) :
    Bool :=
  match session with
  | none => false
  | some s =>
    s.authenticated &&
      (s.userLabels.getD []).any (fun label => allowedLabels.contains label)

/-! ## Ghost members (external directory, parameter of the routes) -/

structure GhostLabel where
  name : String
deriving DecidableEq

structure Member where
  email : String
  name : String
  labels : Option (List GhostLabel)
deriving DecidableEq

/-- `(member.labels || []).map(l => l.name)` from the gateway app. -/
def memberLabelNames (m : Member) : List String :=
  (m.labels.getD []).map GhostLabel.name

/-! ## Route: POST /api/auth/verify-code (src app.js)

The Ghost directory answer for the supplied email is the `member`
parameter; the allowed-label configuration is `allowed`.  The route body:
parameter check, `emailVerification.verifyCode` (which consumes the code),
Ghost lookup, label check, session creation. -/

inductive VerifyCodeRes where
  | missingParams : VerifyCodeRes
  | invalidCode : VerifyCodeRes
  | userNotFound : VerifyCodeRes
  | accessDenied (userLabels : List String) (redirectUrl : String) : VerifyCodeRes
  | success (session : SessionData) : VerifyCodeRes
deriving DecidableEq

def verifyCodeRoute (now : Nat) (member : Option Member)
    (allowed : List String) (email code : Option String) (s : CodeStore) :
    VerifyCodeRes × CodeStore :=
  match email, code with
  | some e, some c =>
    if e = "" ∨ c = "" then (.missingParams, s)
    else
      match verifyCode now e c s with
      | (false, s') => (.invalidCode, s')
      | (true, s') =>
        match member with
        | none => (.userNotFound, s')
        | some m =>
          let userLabels := memberLabelNames m
          if userLabels.any (fun label => allowed.contains label) then
            (.success (createAuthSession m.email m.name userLabels), s')
          else
            (.accessDenied userLabels "https://travelintelligence.club", s')
  | _, _ => (.missingParams, s)

/-! ## Route: POST /api/auth/send-verification (src app.js)

`newCode` stands for the value `emailVerification.generateCode()` returned;
`deliveryOk` for whether `sendVerificationEmail` succeeded (a failure is
caught and mapped to the 500 answer).  The code is stored before the
delivery attempt. -/

inductive SendRes where
  | missingEmail : SendRes
  | userNotFound : SendRes
  | sent : SendRes
  | deliveryFailed : SendRes
deriving DecidableEq

def sendVerificationRoute (now : Nat) (member : Option Member)
    (deliveryOk : Bool) (email : Option String) (newCode : String)
    (s : CodeStore) : SendRes × CodeStore :=
  match email with
  | none => (.missingEmail, s)
  | some e =>
    if e = "" then (.missingEmail, s)
    else
      match member with
      | none => (.userNotFound, s)
      | some _ =>
        let s' := storeCode e newCode (now + 10 * 60 * 1000) s
        if deliveryOk then (.sent, s') else (.deliveryFailed, s')

/-! ## Route: GET /auth/callback (src app.js)

`jwt.verify` is an external library call; it is passed in as a function
returning either the decoded claims or an error (a thrown exception, which
the route's catch maps to the 500 answer). -/

structure JwtClaims where
  iss : String
  email : String
  name : String
  labels : Option (List String)
deriving DecidableEq

inductive CallbackRes where
  | badRequest : CallbackRes
  | unauthorized : CallbackRes
  | serverError : CallbackRes
  | redirect (location : String) (session : SessionData) : CallbackRes
deriving DecidableEq

def authCallback (verify : String → Except String JwtClaims)
    (token : Option String) : CallbackRes :=
  match token with
  | none => .badRequest
  | some t =>
    if t = "" then .badRequest
    else
      match verify t with
      | .error _ => .serverError
      | .ok decoded =>
        if decoded.iss ≠ "bear.flights" then .unauthorized
        else
          .redirect "/"
            (createAuthSession decoded.email decoded.name (decoded.labels.getD []))

/-! ## Proxy and rewriter (src app.js, Ghost content proxy)

JavaScript strings become `String` (operated on through their character
lists).  `htmlContent.replace(pat, repl)` with a string pattern replaces the
FIRST occurrence of the pattern (and leaves the string unchanged when the
pattern does not occur); `Buffer.byteLength` is the UTF-8 byte length. -/

/-- `String.prototype.replace` with a non-empty string pattern: replace the
first occurrence, identity when the pattern is absent. -/
def replaceFirstAux (pat repl : List Char) : List Char → List Char
  | [] => []
  | c :: rest =>
    if pat.isPrefixOf (c :: rest) then repl ++ (c :: rest).drop pat.length
    else c :: replaceFirstAux pat repl rest

def jsStringReplace (s pat repl : String) : String :=
  ⟨replaceFirstAux pat.data repl.data s.data⟩

/-- The injected BearSSO session-sync script block (template literal of the
gateway app, with the `SSO_PROVIDER_URL` configuration interpolated); its
final characters are the closing body tag that the replacement call
consumed. -/
def ssoScript (ssoProviderUrl : String) : String :=
  "\n    <script src=\"" ++ ssoProviderUrl ++
    "/sso-client.js\"></script>\n    <script>\n        BearSSO.init(\x7b\n            authProvider: \x27" ++
    ssoProviderUrl ++
    "\x27,\n            onAuthChange: (user) => \x7b\n                if (!user) \x7b\n                    // User logged out on bear.flights, redirect to trigger SSO\n                    console.log(\x27[BearSSO] User logged out, redirecting...\x27);\n                    window.location.href = \x27/\x27;\n                \x7d\n            \x7d,\n            debug: true\n        \x7d);\n    </script>\n</body>"

/-- `Buffer.byteLength(s)`: UTF-8 byte length. -/
def bufferByteLength (s : String) : Nat :=
  s.data.foldl (fun n c => n + c.utf8Size) 0

/-- `key.toLowerCase()` on (ASCII) header names. -/
def lowerStr (s : String) : String := ⟨s.data.map Char.toLower⟩

/-- `response.headers[name] || ''`. -/
def headerValue (name : String) (headers : List (String × String)) : String :=
  match headers.find? (fun kv => kv.1 == name) with
  | some kv => kv.2
  | none => ""

/-- `s.includes(pat)` for strings, on character lists. -/
def containsSubstring (pat : List Char) : List Char → Bool
  | [] => pat.isEmpty
  | c :: rest => pat.isPrefixOf (c :: rest) || containsSubstring pat rest

structure UpstreamResponse where
  status : Nat
  headers : List (String × String)
  body : String
deriving DecidableEq

/-- What the gateway sends back: status, forwarded headers, the
`content-length` value set by `res.set` on the rewrite path (`none` when the
route does not set one itself), and the body bytes. -/
structure GatewayResponse where
  status : Nat
  headers : List (String × String)
  contentLength : Option Nat
  body : String
deriving DecidableEq

/-- `contentType.includes('text/html')` where
`contentType = response.headers['content-type'] || ''`. -/
def isHtmlResponse (up : UpstreamResponse) : Bool :=
  containsSubstring "text/html".data (headerValue "content-type" up.headers).data

/-- Headers skipped on the HTML (rewrite) branch. -/
def htmlDropHeaders : List String :=
  ["connection", "transfer-encoding", "content-encoding", "content-length"]

/-- Headers skipped on the non-HTML (streaming) branch. -/
def streamDropHeaders : List String :=
  ["connection", "transfer-encoding", "content-encoding"]

/-- The header-forwarding loop: set every upstream header whose lowercased
name is not in the skip list. -/
def filterHeaders (drop : List String) (headers : List (String × String)) :
    List (String × String) :=
  headers.filter fun kv => !(drop.contains (lowerStr kv.1))

/-- The response treatment of the Ghost content proxy: branch on the
upstream content type; on HTML, buffer the body, replace the closing body
tag by the script block, recompute `content-length`; otherwise stream the
body unchanged behind the filtered headers. -/
def proxyResponse (ssoProviderUrl : String) (up : UpstreamResponse) :
    GatewayResponse :=
  if isHtmlResponse up = true then
    let modifiedHtml := jsStringReplace up.body "</body>" (ssoScript ssoProviderUrl)
    { status := up.status
      headers := filterHeaders htmlDropHeaders up.headers
      contentLength := some (bufferByteLength modifiedHtml)
      body := modifiedHtml }
  else
    { status := up.status
      headers := filterHeaders streamDropHeaders up.headers
      contentLength := none
      body := up.body }

/-- Following the spec's words (not the source): locate the LAST occurrence
of the closing body tag and replace it by the script block (whose final
characters are that tag again), i.e. insert the script immediately before
the last occurrence. -/
def replaceLastAux (pat repl s : List Char) : List Char :=
  (replaceFirstAux pat.reverse repl.reverse s.reverse).reverse

/-- Following the spec's words (not the source): the rewritten HTML body
with the script inserted before the last occurrence of the closing body
tag. -/
def specHtmlRewriteLast (script body : String) : String :=
  ⟨replaceLastAux "</body>".data script.data body.data⟩

/-- Following the claim's words (not the source): on the non-HTML branch
only the connection-management headers are dropped. -/
def claimStreamDropHeaders : List String :=
  ["connection", "transfer-encoding"]

/-! Basic store lemmas. -/

theorem getCode_deleteCode (email : String) (s : CodeStore) :
    getCode email (deleteCode email s) = none := by
  induction s with
  | nil => rfl
  | cons kv rest ih =>
    obtain ⟨k, r⟩ := kv
    by_cases h : k = email
    · simpa [deleteCode, h] using ih
    · simpa [deleteCode, getCode, h] using ih

theorem getCode_storeCode_self (email code : String) (expiresAt : Nat)
    (s : CodeStore) :
    getCode email (storeCode email code expiresAt s) = some ⟨code, expiresAt⟩ := by
  simp [storeCode, getCode]

theorem verifyCode_of_getCode_none {now : Nat} {email code : String}
    {s : CodeStore} (h : getCode email s = none) :
    verifyCode now email code s = (false, s) := by
  simp [verifyCode, h]

/-- When `verifyCode` succeeds, the store component is the record-deleted
store, and the stored record matched the supplied code and was unexpired. -/
theorem verifyCode_true_elim {now : Nat} {email code : String}
    {s s' : CodeStore} (h : verifyCode now email code s = (true, s')) :
    s' = deleteCode email s ∧
      ∃ r, getCode email s = some r ∧ r.code = code ∧ ¬ r.expiresAt < now := by
  unfold verifyCode at h
  cases hg : getCode email s with
  | none => rw [hg] at h; exact absurd (congrArg Prod.fst h) (by simp)
  | some stored =>
    rw [hg] at h
    dsimp only at h
    by_cases hc : stored.code ≠ code ∨ stored.expiresAt < now
    · rw [if_pos hc] at h
      by_cases he : stored.expiresAt < now
      · rw [if_pos he] at h; exact absurd (congrArg Prod.fst h) (by simp)
      · rw [if_neg he] at h; exact absurd (congrArg Prod.fst h) (by simp)
    · rw [if_neg hc] at h
      push_neg at hc
      exact ⟨(congrArg Prod.snd h).symm, stored, rfl, hc.1, Nat.not_lt.mpr hc.2⟩

theorem findPasskey_updateCounter (credId : String) (n : Nat) (s : PasskeyStore) :
    findPasskeyByCredentialId credId (updatePasskeyCounter n credId s) =
      (findPasskeyByCredentialId credId s).map fun c => { c with counter := n } := by
  induction s with
  | nil => rfl
  | cons c rest ih =>
    by_cases h : c.credential_id = credId
    · simp [updatePasskeyCounter, findPasskeyByCredentialId, h]
    · simpa [updatePasskeyCounter, findPasskeyByCredentialId, h] using ih


/-! ## Claim theorems -/

/-- C1: for every stored passkey credential, when a finishAuthentication
attempt reports a new counter less than or equal to the currently stored
counter the attempt is rejected (verification failure, state unchanged)
even when the external verification capability reports success; and
whenever the attempt succeeds, the stored counter is updated to the
reported value. -/
theorem passkey_counter_replay_defense (capVerified : Bool) (newCounter : Nat)
    (credId : String) (s : PasskeyStore) :
    (∀ cred, findPasskeyByCredentialId credId s = some cred →
        newCounter ≤ cred.counter →
        verifyAuthentication capVerified newCounter credId s = ((false, none), s))
  ∧ (∀ res s', verifyAuthentication capVerified newCounter credId s = (res, s') →
        res.1 = true →
        ∃ cred, findPasskeyByCredentialId credId s = some cred ∧
          cred.counter < newCounter ∧ capVerified = true ∧
          res.2 = some cred.email ∧
          findPasskeyByCredentialId credId s' =
            some { cred with counter := newCounter }) := by
  constructor
  · intro cred hf hle
    unfold verifyAuthentication
    rw [hf]
    dsimp only
    rw [if_neg fun hc => absurd hc.2 (Nat.not_lt.mpr hle)]
  · intro res s' h htrue
    unfold verifyAuthentication at h
    cases hf : findPasskeyByCredentialId credId s with
    | none =>
      rw [hf] at h
      injection h with h1 h2
      subst h1; subst h2
      exact absurd htrue (by simp)
    | some cred =>
      rw [hf] at h
      dsimp only at h
      by_cases hc : capVerified = true ∧ cred.counter < newCounter
      · rw [if_pos hc] at h
        injection h with h1 h2
        subst h1; subst h2
        refine ⟨cred, rfl, hc.2, hc.1, rfl, ?_⟩
        rw [findPasskey_updateCounter, hf]
        rfl
      · rw [if_neg hc] at h
        injection h with h1 h2
        subst h1; subst h2
        exact absurd htrue (by simp)

/-- C1 witness: a capability-approved assertion whose reported counter (5)
merely equals the stored counter (5) is rejected and leaves the store
unchanged — the spec's own scenario. -/
theorem passkey_counter_replay_defense_witness :
    verifyAuthentication true 5 "cred-1"
        [⟨"cred-1", "a@x.com", "pk", 5⟩] =
      ((false, none), [⟨"cred-1", "a@x.com", "pk", 5⟩]) :=
  (passkey_counter_replay_defense true 5 "cred-1"
      [⟨"cred-1", "a@x.com", "pk", 5⟩]).1
    ⟨"cred-1", "a@x.com", "pk", 5⟩ (by decide) (by decide)

/-- C2: `verifyCode(email, code)` returns false exactly when no record is
stored for that email, or the stored code differs from the supplied code,
or the record has expired; when the stored record has expired the failing
call deletes it; and when all three checks pass the call deletes the record
and returns true. -/
theorem verify_code_characterization (now : Nat) (email code : String)
    (s : CodeStore) :
    ((verifyCode now email code s).1 = false ↔
      getCode email s = none ∨
        ∃ r, getCode email s = some r ∧ (r.code ≠ code ∨ r.expiresAt < now))
  ∧ (∀ r, getCode email s = some r → r.expiresAt < now →
      verifyCode now email code s = (false, deleteCode email s))
  ∧ (∀ r, getCode email s = some r → r.code = code → ¬ r.expiresAt < now →
      verifyCode now email code s = (true, deleteCode email s)) := by
  refine ⟨?_, ?_, ?_⟩
  · cases hg : getCode email s with
    | none => simp [verifyCode, hg]
    | some stored =>
      simp only [verifyCode, hg, Option.some.injEq, reduceCtorEq, false_or]
      split_ifs with hc he <;> simp_all
  · intro r hg he
    unfold verifyCode
    rw [hg]
    dsimp only
    rw [if_pos (Or.inr he), if_pos he]
  · intro r hg hcode hexp
    unfold verifyCode
    rw [hg]
    dsimp only
    rw [if_neg (by push_neg; exact ⟨hcode, Nat.not_lt.mp hexp⟩)]

/-- C2 witness: a matching unexpired code verifies and its record is
deleted by the call. -/
theorem verify_code_characterization_witness :
    verifyCode 3 "a@x.com" "123456" [("a@x.com", ⟨"123456", 9⟩)] =
      (true, deleteCode "a@x.com" [("a@x.com", ⟨"123456", 9⟩)]) :=
  (verify_code_characterization 3 "a@x.com" "123456"
      [("a@x.com", ⟨"123456", 9⟩)]).2.2
    ⟨"123456", 9⟩ (by decide) (by decide) (by decide)

/-- C3: verification codes are single-use — after a successful
`verifyCode(E, c)`, an immediately following `verifyCode(E, c)` on the
resulting store returns false (at any later time as well). -/
theorem verify_code_single_use (now now' : Nat) (email code : String)
    (s s' : CodeStore) (h : verifyCode now email code s = (true, s')) :
    (verifyCode now' email code s').1 = false := by
  obtain ⟨hs', -⟩ := verifyCode_true_elim h
  subst hs'
  rw [verifyCode_of_getCode_none (getCode_deleteCode email s)]

/-- C3 witness: on a store holding a matching unexpired code, the first
verification succeeds and the second fails. -/
theorem verify_code_single_use_witness :
    (verifyCode 0 "a@x.com" "123456" []).1 = false :=
  verify_code_single_use 0 0 "a@x.com" "123456"
    [("a@x.com", ⟨"123456", 5⟩)] [] (by decide)

/-- C4 counterexample: the claim fails when the second issuance happens to
generate the very same code string — `generateCode()` is random and may
repeat.  After storing code "123456" for the email twice, verifying the
first issuance's code "123456" returns true, not false. -/
theorem issue_twice_verify_first_cex :
    (verifyCode 0 "a@x.com" "123456"
        (storeCode "a@x.com" "123456" 600000
          (storeCode "a@x.com" "123456" 600000 []))).1 = true := by
  decide

/-- C4 (amended): issuing a verification code for an email overwrites any
prior record for that email, so after storing `c1` and then `c2` for the
same email, verifying against `c1` fails whenever `c1` differs from the
newly issued `c2`. -/
theorem issue_overwrites_amended (now exp1 exp2 : Nat) (E c1 c2 : String)
    (s : CodeStore) (h : c1 ≠ c2) :
    (verifyCode now E c1 (storeCode E c2 exp2 (storeCode E c1 exp1 s))).1 =
      false := by
  unfold verifyCode
  rw [getCode_storeCode_self]
  dsimp only
  rw [if_pos (Or.inl (Ne.symm h))]
  split <;> rfl

/-- C4 witness: two distinct issued codes — the overwritten one fails. -/
theorem issue_overwrites_amended_witness :
    (verifyCode 0 "a@x.com" "111111"
        (storeCode "a@x.com" "222222" 600000
          (storeCode "a@x.com" "111111" 600000 []))).1 = false :=
  issue_overwrites_amended 0 600000 600000 "a@x.com" "111111" "222222" []
    (by decide)

/-- Helper: when no code is on file for the email, the verify-code route
answers 400 invalid-or-expired and leaves the store unchanged. -/
theorem verifyCodeRoute_invalid_of_none (now : Nat) (member : Option Member)
    (allowed : List String) (E c : String) (s : CodeStore)
    (hp : ¬(E = "" ∨ c = "")) (hg : getCode E s = none) :
    verifyCodeRoute now member allowed (some E) (some c) s =
      (.invalidCode, s) := by
  unfold verifyCodeRoute
  dsimp only
  rw [if_neg hp, verifyCode_of_getCode_none hg]

/-- C5 counterexample: the policy middleware `requireLabels` grants access
to a session that is NOT authenticated but carries an allowed label, while
the claim's evaluation rule denies it — `requireLabels` never consults the
`authenticated` flag. -/
theorem require_labels_authenticated_cex :
    requireLabels
        (some { authenticated := false, userEmail := some "a@x.com",
                userName := some "A", userLabels := some ["builder"] })
        ["builder"] = .next
  ∧ claimEvaluate
        (some { authenticated := false, userEmail := some "a@x.com",
                userName := some "A", userLabels := some ["builder"] })
        ["builder"] = false := by
  decide

/-- C5 (amended): `requireLabels` grants access exactly when the session
exists, carries a labels list, and that list intersects the allowed list —
the `authenticated` flag is not consulted (the separate `requireAuth`
middleware enforces it); every denial is a 403 carrying the fixed redirect
target; and the verify-code route's policy denial is the response that
carries the identity's current labels (`userLabels`) together with the
redirect target. -/
theorem require_labels_amended (session : Option SessionData)
    (allowed : List String) :
    (requireLabels session allowed = .next ↔
      ∃ sess labels, session = some sess ∧ sess.userLabels = some labels ∧
        ∃ l, l ∈ labels ∧ l ∈ allowed)
  ∧ (∀ msg url, requireLabels session allowed = .denied msg url →
      url = "https://travelintelligence.club")
  ∧ (∀ now member E c s labels url,
      (verifyCodeRoute now member allowed (some E) (some c) s).1 =
        .accessDenied labels url →
      ∃ m, member = some m ∧ labels = memberLabelNames m ∧
        url = "https://travelintelligence.club") := by
  refine ⟨?_, ?_, ?_⟩
  · cases session with
    | none => simp [requireLabels]
    | some sess =>
      cases hl : sess.userLabels with
      | none => simp [requireLabels, hl]
      | some labels =>
        simp only [requireLabels, hl]
        by_cases ha : labels.any (fun label => allowed.contains label) = true
        · rw [if_pos ha]
          simp only [true_iff]
          obtain ⟨l, hmem, hc⟩ := List.any_eq_true.mp ha
          exact ⟨sess, labels, rfl, hl, l, hmem, List.elem_iff.mp hc⟩
        · rw [if_neg ha]
          constructor
          · intro h; exact absurd h (by simp)
          · rintro ⟨sess', labels', hs, hl', l, hmem, hc⟩
            injection hs with hs; subst hs
            rw [hl] at hl'
            injection hl' with hl'; subst hl'
            exact absurd
              (List.any_eq_true.mpr ⟨l, hmem, List.elem_iff.mpr hc⟩) ha
  · intro msg url h
    unfold requireLabels at h
    cases session with
    | none => injection h with h1 h2; exact h2.symm
    | some sess =>
      dsimp only at h
      cases hl : sess.userLabels with
      | none =>
        rw [hl] at h
        injection h with h1 h2; exact h2.symm
      | some labels =>
        rw [hl] at h
        dsimp only at h
        by_cases ha : labels.any (fun label => allowed.contains label) = true
        · rw [if_pos ha] at h; injection h
        · rw [if_neg ha] at h; injection h with h1 h2; exact h2.symm
  · intro now member E c s labels url h
    unfold verifyCodeRoute at h
    dsimp only at h
    by_cases hp : E = "" ∨ c = ""
    · rw [if_pos hp] at h; exact absurd h (by simp)
    · rw [if_neg hp] at h
      cases hv : verifyCode now E c s with
      | mk b s' =>
        rw [hv] at h
        cases b with
        | false => exact absurd h (by simp)
        | true =>
          cases member with
          | none => exact absurd h (by simp)
          | some m =>
            dsimp only at h
            by_cases ha :
                (memberLabelNames m).any (fun label => allowed.contains label) = true
            · rw [if_pos ha] at h; exact absurd h (by simp)
            · rw [if_neg ha] at h
              injection h with h1 h2
              exact ⟨m, rfl, h1.symm, h2.symm⟩

/-- C5 amended witness: an authenticated session whose labels meet the
allow-list passes the policy middleware. -/
theorem require_labels_amended_witness :
    requireLabels
        (some { authenticated := true, userEmail := some "a@x.com",
                userName := some "A", userLabels := some ["builder"] })
        ["builder", "patron"] = .next :=
  (require_labels_amended
      (some { authenticated := true, userEmail := some "a@x.com",
              userName := some "A", userLabels := some ["builder"] })
      ["builder", "patron"]).1.mpr
    ⟨_, ["builder"], rfl, rfl, "builder", by decide, by decide⟩

/-- C8: GET /auth/callback answers 400 when the token is missing, 500 when
the JWT library rejects the token (invalid signature throws), 401 when the
token decodes but its issuer is not `bear.flights`, and on a validly signed
token with the correct issuer creates an authenticated session from the
token's claims and redirects (302) to the home page. -/
theorem auth_callback_spec (verify : String → Except String JwtClaims)
    (token : Option String) :
    (token = none → authCallback verify token = .badRequest)
  ∧ (∀ t e, token = some t → t ≠ "" → verify t = .error e →
      authCallback verify token = .serverError)
  ∧ (∀ t c, token = some t → t ≠ "" → verify t = .ok c →
      c.iss ≠ "bear.flights" → authCallback verify token = .unauthorized)
  ∧ (∀ t c, token = some t → t ≠ "" → verify t = .ok c →
      c.iss = "bear.flights" →
      authCallback verify token =
        .redirect "/" (createAuthSession c.email c.name (c.labels.getD []))) := by
  refine ⟨?_, ?_, ?_, ?_⟩
  · intro h; subst h; rfl
  · intro t e ht hne hv
    subst ht
    unfold authCallback
    dsimp only
    rw [if_neg hne, hv]
  · intro t c ht hne hv hiss
    subst ht
    unfold authCallback
    dsimp only
    rw [if_neg hne, hv]
    dsimp only
    rw [if_pos hiss]
  · intro t c ht hne hv hiss
    subst ht
    unfold authCallback
    dsimp only
    rw [if_neg hne, hv]
    dsimp only
    rw [if_neg (fun hn => hn hiss)]

/-- C8 witness: a well-signed token with issuer `bear.flights` yields the
302 redirect home with the claims turned into an authenticated session. -/
theorem auth_callback_spec_witness :
    authCallback
        (fun t =>
          if t = "good" then
            .ok ⟨"bear.flights", "a@x.com", "Bear", some ["builder"]⟩
          else .error "invalid signature")
        (some "good") =
      .redirect "/" (createAuthSession "a@x.com" "Bear" ["builder"]) :=
  (auth_callback_spec _ _).2.2.2 "good"
    ⟨"bear.flights", "a@x.com", "Bear", some ["builder"]⟩ rfl (by decide)
    rfl rfl

/-- C9: POST /api/auth/verify-code consumes a matching unexpired code
before resolving the identity or evaluating policy — whenever the route
fails with 404 (identity not found) or 403 (policy denied), no code is left
on file for the email, and retrying the same request answers 400
invalid-or-expired code. -/
theorem verify_code_route_consumes (now now2 : Nat)
    (member member2 : Option Member) (allowed : List String) (E c : String)
    (s s' : CodeStore) (r : VerifyCodeRes)
    (h : verifyCodeRoute now member allowed (some E) (some c) s = (r, s'))
    (hfail : r = .userNotFound ∨ ∃ labels url, r = .accessDenied labels url) :
    getCode E s' = none ∧
      (verifyCodeRoute now2 member2 allowed (some E) (some c) s').1 =
        .invalidCode := by
  unfold verifyCodeRoute at h
  dsimp only at h
  by_cases hp : E = "" ∨ c = ""
  · rw [if_pos hp] at h
    injection h with h1 h2
    subst h1
    rcases hfail with hf | ⟨labels, url, hf⟩ <;> exact absurd hf (by simp)
  · rw [if_neg hp] at h
    cases hv : verifyCode now E c s with
    | mk b s'' =>
      rw [hv] at h
      cases b with
      | false =>
        dsimp only at h
        injection h with h1 h2
        subst h1
        rcases hfail with hf | ⟨labels, url, hf⟩ <;> exact absurd hf (by simp)
      | true =>
        obtain ⟨hdel, -⟩ := verifyCode_true_elim hv
        subst hdel
        have hconc : getCode E (deleteCode E s) = none := getCode_deleteCode E s
        have hretry :
            (verifyCodeRoute now2 member2 allowed (some E) (some c)
                (deleteCode E s)).1 = .invalidCode := by
          rw [verifyCodeRoute_invalid_of_none now2 member2 allowed E c
            (deleteCode E s) hp hconc]
        cases member with
        | none =>
          dsimp only at h
          injection h with h1 h2
          subst h2
          exact ⟨hconc, hretry⟩
        | some m =>
          dsimp only at h
          by_cases ha :
              (memberLabelNames m).any (fun label => allowed.contains label) = true
          · rw [if_pos ha] at h
            injection h with h1 h2
            subst h1
            rcases hfail with hf | ⟨labels, url, hf⟩ <;> exact absurd hf (by simp)
          · rw [if_neg ha] at h
            injection h with h1 h2
            subst h2
            exact ⟨hconc, hretry⟩

/-- C9 witness: a valid code for an email the directory does not know —
the route answers 404, the code is gone, and the retry answers 400. -/
theorem verify_code_route_consumes_witness :
    getCode "a@x.com" ([] : CodeStore) = none ∧
      (verifyCodeRoute 0 (none : Option Member) ["builder"] (some "a@x.com")
          (some "123456") ([] : CodeStore)).1 = .invalidCode :=
  verify_code_route_consumes 0 0 none none ["builder"] "a@x.com" "123456"
    [("a@x.com", ⟨"123456", 5⟩)] [] .userNotFound (by decide) (Or.inl rfl)

/-- C10 counterexample: the claim's "the prior code is already
unverifiable" fails when the newly generated code collides with the prior
one (the generator is random and may repeat): after a delivery-failed
send-verification that regenerated the same code string, verifying the
prior code still succeeds. -/
theorem send_verification_prior_code_cex :
    (sendVerificationRoute 0 (some ⟨"a@x.com", "A", some [⟨"builder"⟩]⟩) false
        (some "a@x.com") "123456"
        (storeCode "a@x.com" "123456" 600000 [])).1 = .deliveryFailed
  ∧ (verifyCode 0 "a@x.com" "123456"
        (sendVerificationRoute 0 (some ⟨"a@x.com", "A", some [⟨"builder"⟩]⟩)
            false (some "a@x.com") "123456"
            (storeCode "a@x.com" "123456" 600000 [])).2).1 = true := by
  decide

/-- C10 (amended): POST /api/auth/send-verification stores the newly
generated code (overwriting any prior record for the email) before the
delivery attempt, so on delivery failure the route answers 500 while the
new code is stored and verifiable, and any prior code that differs from
the newly generated one no longer verifies. -/
theorem send_verification_stores_before_delivery (now now2 : Nat) (m : Member)
    (E newCode : String) (s : CodeStore) (hE : E ≠ "") :
    (sendVerificationRoute now (some m) false (some E) newCode s).1 =
        .deliveryFailed
  ∧ getCode E (sendVerificationRoute now (some m) false (some E) newCode s).2 =
      some ⟨newCode, now + 10 * 60 * 1000⟩
  ∧ (verifyCode now E newCode
        (sendVerificationRoute now (some m) false (some E) newCode s).2).1 =
      true
  ∧ (∀ old, old ≠ newCode →
      (verifyCode now2 E old
          (sendVerificationRoute now (some m) false (some E) newCode s).2).1 =
        false) := by
  have hroute :
      sendVerificationRoute now (some m) false (some E) newCode s =
        (.deliveryFailed, storeCode E newCode (now + 10 * 60 * 1000) s) := by
    unfold sendVerificationRoute
    dsimp only
    rw [if_neg hE]
    rfl
  rw [hroute]
  refine ⟨rfl, getCode_storeCode_self E newCode (now + 10 * 60 * 1000) s, ?_, ?_⟩
  · unfold verifyCode
    rw [getCode_storeCode_self]
    dsimp only
    rw [if_neg (by push_neg; exact ⟨rfl, Nat.le_add_right now (10 * 60 * 1000)⟩)]
  · intro old hold
    unfold verifyCode
    rw [getCode_storeCode_self]
    dsimp only
    rw [if_pos (Or.inl (Ne.symm hold))]
    split <;> rfl

/-- C10 amended witness: delivery fails, yet the freshly stored code
verifies. -/
theorem send_verification_stores_before_delivery_witness :
    (verifyCode 0 "a@x.com" "123456"
        (sendVerificationRoute 0 (some ⟨"a@x.com", "A", some [⟨"builder"⟩]⟩)
            false (some "a@x.com") "123456" []).2).1 = true :=
  (send_verification_stores_before_delivery 0 0
      ⟨"a@x.com", "A", some [⟨"builder"⟩]⟩ "a@x.com" "123456" []
      (by decide)).2.2.1

theorem string_data_append (a b : String) : (a ++ b).data = a.data ++ b.data := by
  cases a; cases b; rfl

/-- When the pattern does not occur in the string, the JavaScript
replacement leaves it unchanged. -/
theorem replaceFirstAux_of_not_contains (pat repl : List Char) (s : List Char)
    (h : containsSubstring pat s = false) : replaceFirstAux pat repl s = s := by
  induction s with
  | nil => rfl
  | cons c rest ih =>
    rw [containsSubstring, Bool.or_eq_false_iff] at h
    rw [replaceFirstAux, if_neg (by simp [h.1]), ih h.2]

/-- The JavaScript replacement rewrites the FIRST occurrence of the
pattern: whenever the string decomposes around the pattern at all, there is
a length-minimal decomposition whose pattern slot the replacement fills. -/
theorem replaceFirstAux_first_occurrence (pat repl : List Char) (hne : pat ≠ [])
    (s : List Char) :
    ∀ pre post, s = pre ++ pat ++ post →
      ∃ pre' post', s = pre' ++ pat ++ post' ∧
        (∀ q r, s = q ++ pat ++ r → pre'.length ≤ q.length) ∧
        replaceFirstAux pat repl s = pre' ++ repl ++ post' := by
  induction s with
  | nil =>
    intro pre post hdec
    have h1 := List.append_eq_nil.mp hdec.symm
    exact absurd (List.append_eq_nil.mp h1.1).2 hne
  | cons c rest ih =>
    intro pre post hdec
    by_cases hpre : pat.isPrefixOf (c :: rest) = true
    · obtain ⟨u, hu⟩ := List.isPrefixOf_iff_prefix.mp hpre
      refine ⟨[], u, by simpa using hu.symm, fun q r _ => Nat.zero_le _, ?_⟩
      rw [replaceFirstAux, if_pos hpre]
      simp only [List.nil_append]
      congr 1
      rw [← hu, List.drop_left]
    · have hq : ∀ (q : List Char) (r : List Char),
          c :: rest = q ++ pat ++ r → q ≠ [] := by
        intro q r hd hqnil
        subst hqnil
        simp only [List.nil_append] at hd
        exact hpre (List.isPrefixOf_iff_prefix.mpr ⟨r, hd.symm⟩)
      cases pre with
      | nil => exact absurd rfl (hq [] post hdec)
      | cons p pre0 =>
        have hstep : c :: rest = p :: (pre0 ++ pat ++ post) := by simpa using hdec
        have hc : c = p := by injection hstep
        have hrest : rest = pre0 ++ pat ++ post := by
          injection hstep with h1 h2
        subst hc
        obtain ⟨pre', post', hdec', hmin, heq⟩ := ih pre0 post hrest
        refine ⟨c :: pre', post', by simpa using congrArg (c :: ·) hdec', ?_, ?_⟩
        · intro q r hd
          cases q with
          | nil => exact absurd rfl (hq [] r hd)
          | cons a q0 =>
            have hstep2 : c :: rest = a :: (q0 ++ pat ++ r) := by simpa using hd
            have hrest2 : rest = q0 ++ pat ++ r := by
              injection hstep2 with g1 g2
            simpa using Nat.succ_le_succ (hmin q0 r hrest2)
        · rw [replaceFirstAux, if_neg hpre, heq]
          rfl

/-- The injected script block's final characters are the closing body tag
(the template literal ends in the tag the replacement call consumed). -/
theorem ssoScript_trailing (url : String) :
    ∃ core, (ssoScript url).data = core ++ "</body>".data := by
  refine ⟨("\n    <script src=\"").data ++ url.data ++
      ("/sso-client.js\"></script>\n    <script>\n        BearSSO.init(\x7b\n            authProvider: \x27").data ++
      url.data ++
      ("\x27,\n            onAuthChange: (user) => \x7b\n                if (!user) \x7b\n                    // User logged out on bear.flights, redirect to trigger SSO\n                    console.log(\x27[BearSSO] User logged out, redirecting...\x27);\n                    window.location.href = \x27/\x27;\n                \x7d\n            \x7d,\n            debug: true\n        \x7d);\n    </script>\n").data,
    ?_⟩
  unfold ssoScript
  simp only [string_data_append, List.append_assoc]
  exact congrArg _ (congrArg _ (congrArg _ (congrArg _ (by decide))))

/-- C6 counterexample: on an HTML body holding two closing body tags, the
proxy's rewrite differs from inserting the script block before the LAST
occurrence — `htmlContent.replace('</body>', ...)` rewrites the first
occurrence. -/
theorem html_rewrite_last_cex :
    (proxyResponse "http://localhost:3001"
        { status := 200, headers := [("content-type", "text/html")],
          body := "<body>A</body>B</body>" }).body ≠
      specHtmlRewriteLast (ssoScript "http://localhost:3001")
        "<body>A</body>B</body>" := by
  decide

/-- C6 (amended): for every proxied upstream response whose content type is
HTML, the rewriter inserts the fixed session-sync script block immediately
before the FIRST occurrence of the closing body tag (the body passes
through unchanged when no closing body tag occurs), and the response's
content-length equals the byte length of the rewritten body. -/
theorem html_rewrite_amended (ssoProviderUrl : String) (up : UpstreamResponse)
    (h : isHtmlResponse up = true) :
    (containsSubstring "</body>".data up.body.data = false →
      (proxyResponse ssoProviderUrl up).body = up.body)
  ∧ (∀ pre post, up.body.data = pre ++ "</body>".data ++ post →
      ∃ pre' post',
        up.body.data = pre' ++ "</body>".data ++ post' ∧
        (∀ q r, up.body.data = q ++ "</body>".data ++ r →
          pre'.length ≤ q.length) ∧
        (proxyResponse ssoProviderUrl up).body.data =
          pre' ++ (ssoScript ssoProviderUrl).data ++ post')
  ∧ (∃ core, (ssoScript ssoProviderUrl).data = core ++ "</body>".data)
  ∧ (proxyResponse ssoProviderUrl up).contentLength =
      some (bufferByteLength (proxyResponse ssoProviderUrl up).body) := by
  have hbranch : proxyResponse ssoProviderUrl up =
      { status := up.status
        headers := filterHeaders htmlDropHeaders up.headers
        contentLength :=
          some (bufferByteLength
            (jsStringReplace up.body "</body>" (ssoScript ssoProviderUrl)))
        body := jsStringReplace up.body "</body>" (ssoScript ssoProviderUrl) } := by
    unfold proxyResponse
    rw [if_pos h]
  refine ⟨?_, ?_, ssoScript_trailing ssoProviderUrl, ?_⟩
  · intro hno
    rw [hbranch]
    exact congrArg String.mk
      (replaceFirstAux_of_not_contains "</body>".data
        (ssoScript ssoProviderUrl).data up.body.data hno)
  · intro pre post hdec
    obtain ⟨pre', post', hdec', hmin, heq⟩ :=
      replaceFirstAux_first_occurrence "</body>".data
        (ssoScript ssoProviderUrl).data (by decide) up.body.data pre post hdec
    exact ⟨pre', post', hdec', hmin, by rw [hbranch]; exact heq⟩
  · rw [hbranch]

/-- C6 amended witness: a single-closing-tag HTML page — the script block
fills the (unique, hence first) tag slot. -/
theorem html_rewrite_amended_witness :
    ∃ pre' post',
      ("<p>Hello</body>" : String).data = pre' ++ "</body>".data ++ post' ∧
      (∀ q r, ("<p>Hello</body>" : String).data = q ++ "</body>".data ++ r →
        pre'.length ≤ q.length) ∧
      (proxyResponse "http://localhost:3001"
          { status := 200, headers := [("content-type", "text/html")],
            body := "<p>Hello</body>" }).body.data =
        pre' ++ (ssoScript "http://localhost:3001").data ++ post' :=
  (html_rewrite_amended "http://localhost:3001"
      { status := 200, headers := [("content-type", "text/html")],
        body := "<p>Hello</body>" } (by decide)).2.1
    "<p>Hello".data [] (by decide)

/-- C7 counterexample: the non-HTML branch also drops `content-encoding` —
an upstream JSON response carrying `content-encoding: gzip` is forwarded
without it, against the claim that only `connection` and
`transfer-encoding` are dropped on this path. -/
theorem nonhtml_content_encoding_cex :
    (proxyResponse "http://localhost:3001"
        { status := 200,
          headers := [("content-type", "application/json"),
                      ("content-encoding", "gzip")],
          body := "x" }).headers ≠
      filterHeaders claimStreamDropHeaders
        [("content-type", "application/json"), ("content-encoding", "gzip")] := by
  decide

/-- C7 (amended): for every proxied upstream response whose content type is
not HTML, the body is byte-identical to the upstream body, the status code
is preserved, no content-length is recomputed, and an upstream header is
forwarded exactly when its lowercased name is none of `connection`,
`transfer-encoding`, `content-encoding` — the streaming path drops
`content-encoding` as well; only `content-length` is dropped exclusively on
the rewrite path. -/
theorem nonhtml_stream_amended (ssoProviderUrl : String) (up : UpstreamResponse)
    (h : isHtmlResponse up = false) :
    (proxyResponse ssoProviderUrl up).body = up.body
  ∧ (proxyResponse ssoProviderUrl up).status = up.status
  ∧ (proxyResponse ssoProviderUrl up).contentLength = none
  ∧ ∀ kv, (kv ∈ (proxyResponse ssoProviderUrl up).headers ↔
      kv ∈ up.headers ∧ ¬ lowerStr kv.1 ∈ streamDropHeaders) := by
  have hbranch : proxyResponse ssoProviderUrl up =
      { status := up.status
        headers := filterHeaders streamDropHeaders up.headers
        contentLength := none
        body := up.body } := by
    unfold proxyResponse
    rw [if_neg (by rw [h]; exact Bool.false_ne_true)]
  rw [hbranch]
  refine ⟨rfl, rfl, rfl, ?_⟩
  intro kv
  simp [filterHeaders, List.mem_filter, List.elem_iff]

/-- C7 amended witness: a JSON response passes through with body, status
and `content-type` intact. -/
theorem nonhtml_stream_amended_witness :
    (proxyResponse "http://localhost:3001"
        { status := 404,
          headers := [("content-type", "application/json")],
          body := "\x7b\x7d" }).body = "\x7b\x7d" :=
  (nonhtml_stream_amended "http://localhost:3001"
      { status := 404, headers := [("content-type", "application/json")],
        body := "\x7b\x7d" } (by decide)).1

end TravelInsights
